import Mathlib

/-!
Verification of the EduLite backend's access-control and membership core.

This file gives a shallow embedding, in Lean 4, of the parts of the EduLite
Django backend that the specification's claims are about:

* the course-membership state machine of courses/views.py
  (membership patch / remove / leave / join), together with the
  last-teacher guard of CourseMembershipDetailView;
* the privacy policy evaluator of users/services/privacy_service.py;
* the slideshow serializers and models of slideshows/serializers.py and
  slideshows/models.py (slide field redaction, optimistic version check,
  nested slide replacement, slide order auto-assignment).

The relational store is embedded as explicit lists of rows; each HTTP
operation becomes a pure function from the store (and the request data the
view reads) to a declarative outcome carrying the resulting store, so that
"the store is unchanged" is an equation on the result.  Database-generated
primary keys are modelled by threading an explicit fresh-id argument.
Framework plumbing (HTTP marshalling, datetime columns, the markdown
renderer) is outside the model; the renderer is a parameter.
-/

namespace EduLite

/-! ## Course membership data model (courses/models.py via its uses in views.py) -/

/-- Membership role, choices student / assistant / teacher. -/
inductive Role where
  | student
  | assistant
  | teacher
deriving DecidableEq

/-- Membership status, choices enrolled / pending / invited. -/
inductive MemberStatus where
  | enrolled
  | pending
  | invited
deriving DecidableEq

/-- Course visibility: pub, restricted and priv stand for the source strings
"public", "restricted" and "private". -/
inductive CourseVisibility where
  | pub
  | restricted
  | priv
deriving DecidableEq

/-- The fields of Course that the enrollment logic reads. -/
structure Course where
  id : Nat
  visibility : CourseVisibility
  allow_join_requests : Bool
deriving DecidableEq

/-- One CourseMembership row: primary key, user, course, role and status. -/
structure CourseMembership where
  pk : Nat
  userId : Nat
  courseId : Nat
  role : Role
  status : MemberStatus
deriving DecidableEq

/-- Embedding of the queryset
CourseMembership.objects.filter(course=m.course, role="teacher",
status="enrolled").exclude(pk=m.pk).exists() used by the last-teacher
guards in courses/views.py. -/
def otherEnrolledTeacherExists (store : List CourseMembership)
    (m : CourseMembership) : Bool :=
  store.any fun o =>
    o.courseId == m.courseId && (o.role == Role.teacher &&
      (o.status == MemberStatus.enrolled && o.pk != m.pk))

/-- Embedding of CourseMembershipDetailView.is_last_teacher: true when the
membership has role teacher and no other enrolled teacher membership exists
in its course. -/
def isLastTeacher (store : List CourseMembership) (m : CourseMembership) : Bool :=
  m.role == Role.teacher && ! otherEnrolledTeacherExists store m

/-- Number of memberships of the given course with role teacher and status
enrolled; used to state what a mutation leaves behind. -/
def enrolledTeacherCount (store : List CourseMembership) (cid : Nat) : Nat :=
  (store.filter fun o =>
    o.courseId == cid && (o.role == Role.teacher &&
      o.status == MemberStatus.enrolled)).length

/-- Status values accepted by the membership PATCH endpoint
(choices enrolled / denied in the documented request schema). -/
inductive PatchStatus where
  | enrolled
  | denied
deriving DecidableEq

/-- The request body of CourseMembershipDetailView.patch: optional status
and optional role, as the view reads them from request.data. -/
structure MembershipPatchRequest where
  status : Option PatchStatus
  role : Option Role
deriving DecidableEq

/-- Declarative outcome of a membership mutation, carrying the store after
the operation.  The constructors correspond to the HTTP codes the views
return: ok 200, created 201, noContent 204, badRequest 400, forbidden 403,
notFound 404, conflict 409. -/
inductive MutationResult where
  | ok (store : List CourseMembership)
  | created (m : CourseMembership) (store : List CourseMembership)
  | noContent (store : List CourseMembership)
  | badRequest (store : List CourseMembership)
  | forbidden (store : List CourseMembership)
  | notFound (store : List CourseMembership)
  | conflict (store : List CourseMembership)
deriving DecidableEq

/-- Deleting a membership row by primary key (membership.delete()). -/
def deleteMembership (store : List CourseMembership) (pk : Nat) :
    List CourseMembership :=
  store.filter fun o => o.pk != pk

/-- Saving an updated row back into the store (serializer.save() on an
existing instance). -/
def updateStore (store : List CourseMembership) (m : CourseMembership) :
    List CourseMembership :=
  store.map fun o => if o.pk == m.pk then m else o

/-- Applying a partial membership patch to an instance, as
CourseMembershipSerializer does for the documented status / role fields.
The denied status is handled before the serializer runs and never reaches
this function. -/
def applyPatch (m : CourseMembership) (req : MembershipPatchRequest) :
    CourseMembership :=
  { m with
    role := req.role.getD m.role
    status :=
      match req.status with
      | some PatchStatus.enrolled => MemberStatus.enrolled
      | _ => m.status }

/-- CourseMembershipSerializer.validate duplicate check: another row with
the same user and course, excluding the instance itself. -/
def duplicatePairExists (store : List CourseMembership)
    (m : CourseMembership) : Bool :=
  store.any fun o =>
    o.userId == m.userId && (o.courseId == m.courseId && o.pk != m.pk)

/-- Embedding of CourseMembershipDetailView.patch.  In source order: a
denied status deletes the row outright (204); then the last-teacher guard
rejects demoting the last teacher (409); then
CourseMembershipSerializer.validate may reject (400: duplicate pair, or a
non-student left with pending status); otherwise the patched row is saved
(200). -/
def membershipPatch (store : List CourseMembership) (m : CourseMembership)
    (req : MembershipPatchRequest) : MutationResult :=
  if req.status == some PatchStatus.denied then
    MutationResult.noContent (deleteMembership store m.pk)
  else
    let demotesLastTeacher :=
      match req.role with
      | some r =>
          r != Role.teacher && (m.role == Role.teacher && isLastTeacher store m)
      | none => false
    if demotesLastTeacher then
      MutationResult.conflict store
    else
      let m2 := applyPatch m req
      if duplicatePairExists store m ||
          (m2.role != Role.student && m2.status == MemberStatus.pending) then
        MutationResult.badRequest store
      else
        MutationResult.ok (updateStore store m2)

/-- Embedding of CourseMembershipDetailView.delete: removing a member is
rejected with 409 when the membership is the last enrolled teacher,
otherwise the row is deleted (204). -/
def membershipRemove (store : List CourseMembership) (m : CourseMembership) :
    MutationResult :=
  if isLastTeacher store m then
    MutationResult.conflict store
  else
    MutationResult.noContent (deleteMembership store m.pk)

/-- First membership of the given user in the given course
(CourseMembership.objects.filter(course_id=pk, user=request.user).first()). -/
def findMembership (store : List CourseMembership) (cid uid : Nat) :
    Option CourseMembership :=
  store.find? fun o => o.courseId == cid && o.userId == uid

/-- Embedding of CourseEnrollView.delete (leave a course): 404 when the
caller has no membership; 409 when the caller is a teacher and no other
enrolled teacher membership remains; otherwise the row is deleted (204). -/
def courseLeave (store : List CourseMembership) (cid uid : Nat) :
    MutationResult :=
  match findMembership store cid uid with
  | none => MutationResult.notFound store
  | some m =>
      if m.role == Role.teacher && ! otherEnrolledTeacherExists store m then
        MutationResult.conflict store
      else
        MutationResult.noContent (deleteMembership store m.pk)

/-- Embedding of CourseEnrollView.post (join a course): 409 when a
membership for the pair already exists in any status; public courses
enroll immediately; restricted courses with join requests create a pending
membership; otherwise 403.  freshPk models the database-assigned primary
key of the created row. -/
def courseJoin (store : List CourseMembership) (c : Course) (uid freshPk : Nat) :
    MutationResult :=
  if store.any fun o => o.courseId == c.id && o.userId == uid then
    MutationResult.conflict store
  else if c.visibility == CourseVisibility.pub then
    let m : CourseMembership :=
      ⟨freshPk, uid, c.id, Role.student, MemberStatus.enrolled⟩
    MutationResult.created m (m :: store)
  else if c.visibility == CourseVisibility.restricted && c.allow_join_requests then
    let m : CourseMembership :=
      ⟨freshPk, uid, c.id, Role.student, MemberStatus.pending⟩
    MutationResult.created m (m :: store)
  else
    MutationResult.forbidden store

/-- Modelled from the spec: the accept-invitation endpoint
(course-enroll-accept) is exercised by the repository's tests but its view
code is not among the provided sources.  Per the spec, accepting is valid
only when the caller's own membership status is exactly invited, in which
case it transitions to enrolled; any other state (no membership, pending,
enrolled) is treated as not-found. -/
def acceptInvitation (store : List CourseMembership) (cid uid : Nat) :
    MutationResult :=
  match findMembership store cid uid with
  | some m =>
      if m.status == MemberStatus.invited then
        MutationResult.ok (updateStore store { m with status := MemberStatus.enrolled })
      else
        MutationResult.notFound store
  | none => MutationResult.notFound store

/-! ## Privacy policy evaluator (users/services/privacy_service.py) -/

/-- Search visibility choices: everyone / nobody / friends_only /
friends_of_friends. -/
inductive SearchVisibility where
  | everyone
  | nobody
  | friends_only
  | friends_of_friends
deriving DecidableEq

/-- Profile visibility choices; pub and priv stand for the source strings
"public" and "private". -/
inductive ProfileVisibility where
  | pub
  | priv
  | friends_only
deriving DecidableEq

/-- The attributes of a requesting user that the privacy service reads. -/
structure Actor where
  id : Nat
  is_authenticated : Bool
  is_staff : Bool
  is_superuser : Bool
deriving DecidableEq

/-- A UserProfilePrivacySettings row; ownerId is the id of
privacy_settings.user_profile.user. -/
structure PrivacySettings where
  ownerId : Nat
  search_visibility : SearchVisibility
  profile_visibility : ProfileVisibility
  allow_friend_requests : Bool
  show_email : Bool
  show_full_name : Bool
deriving DecidableEq

/-- The friendship store: for each user id, the list of ids in that
profile's friends relation.  Operations take it as an explicit fact
provider, mirroring how the service queries the ORM. -/
def FriendsMap : Type := Nat → List Nat

/-- Embedding of PrivacyService.have_mutual_friends: some friend of the
target counts the other user as a friend
(user_profile.friends.filter(profile__friends=other_user).exists()). -/
def have_mutual_friends (friends : FriendsMap) (targetId otherId : Nat) : Bool :=
  (friends targetId).any fun f => (friends f).any fun x => x == otherId

/-- Embedding of PrivacyService.can_be_found_by_user.  The requesting user
is none when anonymous.  Note that this check has no staff or superuser
branch in the source. -/
def can_be_found_by_user (friends : FriendsMap) (ps : PrivacySettings)
    (ru : Option Actor) : Bool :=
  match ru with
  | none => ps.search_visibility == SearchVisibility.everyone
  | some u =>
      if ! u.is_authenticated then
        ps.search_visibility == SearchVisibility.everyone
      else if u.id == ps.ownerId then
        true
      else
        match ps.search_visibility with
        | SearchVisibility.everyone => true
        | SearchVisibility.nobody => false
        | SearchVisibility.friends_only =>
            (friends ps.ownerId).any fun x => x == u.id
        | SearchVisibility.friends_of_friends =>
            if (friends ps.ownerId).any fun x => x == u.id then true
            else have_mutual_friends friends ps.ownerId u.id

/-- Embedding of PrivacyService.can_view_full_profile: anonymous actors see
only public profiles; the owner always; staff and superusers always;
otherwise per profile_visibility. -/
def can_view_full_profile (friends : FriendsMap) (ps : PrivacySettings)
    (ru : Option Actor) : Bool :=
  match ru with
  | none => ps.profile_visibility == ProfileVisibility.pub
  | some u =>
      if ! u.is_authenticated then
        ps.profile_visibility == ProfileVisibility.pub
      else if u.id == ps.ownerId then
        true
      else if u.is_superuser || u.is_staff then
        true
      else
        match ps.profile_visibility with
        | ProfileVisibility.pub => true
        | ProfileVisibility.priv => false
        | ProfileVisibility.friends_only =>
            (friends ps.ownerId).any fun x => x == u.id

/-- The per-user privacy settings lookup used by the field-level checks
(PrivacyService.get_privacy_settings); none models a user without a
settings record. -/
def SettingsMap : Type := Nat → Option PrivacySettings

/-- Embedding of PrivacyService.should_show_email: self and staff or
superuser always see it; otherwise the show_email flag, defaulting to
false when no settings record exists. -/
def should_show_email (settingsOf : SettingsMap) (targetId : Nat)
    (ru : Option Actor) : Bool :=
  match ru with
  | some u =>
      if targetId == u.id then true
      else if u.is_superuser || u.is_staff then true
      else
        match settingsOf targetId with
        | some ps => ps.show_email
        | none => false
  | none =>
      match settingsOf targetId with
      | some ps => ps.show_email
      | none => false

/-- Embedding of PrivacyService.should_show_full_name: self and staff or
superuser always see it; otherwise the show_full_name flag, defaulting to
true when no settings record exists. -/
def should_show_full_name (settingsOf : SettingsMap) (targetId : Nat)
    (ru : Option Actor) : Bool :=
  match ru with
  | some u =>
      if targetId == u.id then true
      else if u.is_superuser || u.is_staff then true
      else
        match settingsOf targetId with
        | some ps => ps.show_full_name
        | none => true
  | none =>
      match settingsOf targetId with
      | some ps => ps.show_full_name
      | none => true

/-! ## Slideshows (slideshows/models.py, slideshows/serializers.py,
slideshows/views.py) -/

/-- Slideshow visibility; pub, unlisted and priv stand for the source
strings "public", "unlisted" and "private". -/
inductive SlideshowVisibility where
  | pub
  | unlisted
  | priv
deriving DecidableEq

/-- The Slideshow row fields the claims are about.  Timestamp columns are
outside the model. -/
structure Slideshow where
  id : Nat
  title : String
  description : Option String
  created_by : Nat
  visibility : SlideshowVisibility
  is_published : Bool
  version : Nat
deriving DecidableEq

/-- A saved Slide row.  Slide.save always assigns a concrete order before
insert, so saved rows carry a plain Nat order.  rendered_content caches
the renderer's output on content. -/
structure Slide where
  id : Nat
  slideshowId : Nat
  order : Nat
  title : Option String
  content : String
  rendered_content : String
  notes : Option String
deriving DecidableEq

/-- Incoming slide data from a request body: the order may be omitted to
request auto-assignment. -/
structure SlidePayload where
  order : Option Nat
  title : Option String
  content : String
  notes : Option String
deriving DecidableEq

/-- A serialized field value in a slide representation. -/
inductive RValue where
  | nat (n : Nat)
  | str (s : String)
  | optStr (s : Option String)
deriving DecidableEq

/-- The dictionary SlideSerializer builds before redaction, restricted to
the modelled columns (the serializer also emits the two timestamp
columns, which carry no policy content). -/
def slideBaseRepresentation (s : Slide) : List (String × RValue) :=
  [("id", RValue.nat s.id),
   ("order", RValue.nat s.order),
   ("content", RValue.str s.content),
   ("rendered_content", RValue.str s.rendered_content),
   ("notes", RValue.optStr s.notes)]

/-- data.pop(key, None) on a representation dictionary. -/
def popKey (data : List (String × RValue)) (k : String) :
    List (String × RValue) :=
  data.filter fun p => p.1 != k

/-- Embedding of SlideSerializer.to_representation for a request carrying
the given user: when the requester is not the owner of the parent
slideshow, the raw content and the notes entries are removed. -/
def slideToRepresentation (ss : Slideshow) (requesterId : Nat) (s : Slide) :
    List (String × RValue) :=
  let data := slideBaseRepresentation s
  if ss.created_by == requesterId then data
  else popKey (popKey data "content") "notes"

/-- Orders of the slides belonging to one slideshow. -/
def ordersOf (store : List Slide) (ssId : Nat) : List Nat :=
  (store.filter fun s => s.slideshowId == ssId).map fun s => s.order

/-- Embedding of the aggregate Max("order") over the slideshow's slides in
Slide.save: none when the slideshow has no slides. -/
def maxOrder (store : List Slide) (ssId : Nat) : Option Nat :=
  match ordersOf store ssId with
  | [] => none
  | o :: os => some (os.foldl Nat.max o)

/-- The order Slide.save auto-assigns when none is given: max existing
order plus one, or zero when the slideshow has no slides. -/
def autoOrder (store : List Slide) (ssId : Nat) : Nat :=
  match maxOrder store ssId with
  | some m => m + 1
  | none => 0

/-- Embedding of Slide.save on a new row: auto-assign the order when the
payload leaves it blank, then cache the rendered markdown.  freshId models
the database-assigned primary key. -/
def slideSave (render : String → String) (store : List Slide)
    (ssId freshId : Nat) (p : SlidePayload) : Slide :=
  { id := freshId
    slideshowId := ssId
    order :=
      match p.order with
      | some o => o
      | none => autoOrder store ssId
    title := p.title
    content := p.content
    rendered_content := render p.content
    notes := p.notes }

/-- The unique_together [["slideshow", "order"]] constraint of Slide.Meta:
true when a row of the same slideshow already holds this order. -/
def slideOrderConflict (store : List Slide) (ssId ord : Nat) : Bool :=
  store.any fun s => s.slideshowId == ssId && s.order == ord

/-- Inserting one new slide: the database rejects a duplicate
(slideshow, order) pair, otherwise the saved row is added.  An error
leaves the store unchanged (the surrounding transaction rolls back). -/
def slideCreate (render : String → String) (store : List Slide)
    (ssId freshId : Nat) (p : SlidePayload) :
    Except Unit (Slide × List Slide) :=
  let s := slideSave render store ssId freshId p
  if slideOrderConflict store ssId s.order then Except.error ()
  else Except.ok (s, s :: store)

/-- Sequential creation of the payload slides during a nested update,
threading fresh primary keys; any uniqueness violation aborts the whole
transaction. -/
def insertSlides (render : String → String) (ssId : Nat) :
    Nat → List SlidePayload → List Slide → Except Unit (List Slide)
  | _, [], store => Except.ok store
  | fid, p :: rest, store =>
      let s := slideSave render store ssId fid p
      if slideOrderConflict store ssId s.order then Except.error ()
      else insertSlides render ssId (fid + 1) rest (s :: store)

/-- The client-supplied version value at the point the serializer's own
code runs, i.e. after the IntegerField of the writable version field has
accepted the raw value: intVal n when int(client_version) on the raw
request value yields n (the coerced validated value is then the same n);
nonIntCoerced n when int raises on the raw value but the field coerced it
to n in validated_data (a string of the form "1.0", whose trailing
decimal zeros the field strips while a bare int call raises ValueError).
Raw values the field cannot coerce at all, such as "abc", fail field
validation with a 400 before validate runs and never reach the code
modelled here. -/
inductive ClientVersion where
  | intVal (n : Int)
  | nonIntCoerced (n : Nat)
deriving DecidableEq

/-- A slideshow PATCH body: the optional raw version value, the optional
metadata fields this model carries, and the optional nested slides
array. -/
structure SlideshowPatchRequest where
  version : Option ClientVersion
  title : Option String
  description : Option String
  visibility : Option SlideshowVisibility
  is_published : Option Bool
  slides : Option (List SlidePayload)
deriving DecidableEq

/-- Embedding of SlideshowDetailSerializer.validate on an update: false
exactly when the client supplied a version, it parsed as an integer, and
it differs from the stored version; a missing or unparsable version skips
the check. -/
def slideshowValidate (ss : Slideshow) (req : SlideshowPatchRequest) : Bool :=
  match req.version with
  | some (ClientVersion.intVal n) => n == (ss.version : Int)
  | _ => true

/-- The setattr loop of SlideshowDetailSerializer.update restricted to the
modelled fields.  The version field is a writable serializer field (it is
listed in Meta.fields and not in read_only_fields), so a client-supplied
version that passed field coercion sits in validated_data and is written
to the instance here, before the increment: for intVal n the written
value is n (only realizable non-negative, per the positive-integer field,
so toNat is exact there), for nonIntCoerced n it is the coerced n, and
with no version key the stored value stands. -/
def applySlideshowFields (ss : Slideshow) (req : SlideshowPatchRequest) :
    Slideshow :=
  { ss with
    title := req.title.getD ss.title
    description :=
      match req.description with
      | some d => some d
      | none => ss.description
    visibility := req.visibility.getD ss.visibility
    is_published := req.is_published.getD ss.is_published
    version :=
      match req.version with
      | some (ClientVersion.intVal n) => n.toNat
      | some (ClientVersion.nonIntCoerced n) => n
      | none => ss.version }

/-- The increment instance.version += 1 that update performs after the
setattr loop. -/
def bumpVersion (ss : Slideshow) : Slideshow :=
  { ss with version := ss.version + 1 }

/-- Outcome of a slideshow PATCH, carrying the slideshow row and the slide
store after the request: versionConflict is the 409 raised by validate,
dbError a uniqueness violation during nested slide creation (the atomic
transaction rolls everything back), ok the 200 path. -/
inductive SlideshowPatchResult where
  | versionConflict (ss : Slideshow) (store : List Slide)
  | dbError (ss : Slideshow) (store : List Slide)
  | ok (ss : Slideshow) (store : List Slide)
deriving DecidableEq

/-- Embedding of the slideshow PATCH
(SlideshowRetrieveUpdateDestroyView.patch driving
SlideshowDetailSerializer.validate and update): validate first; on
success run the setattr loop (which includes a supplied version value),
then increment the version by one, and, only when a slides array was
supplied, delete the slideshow's slides and recreate them from the
payload. -/
def slideshowPatch (render : String → String) (ss : Slideshow)
    (store : List Slide) (req : SlideshowPatchRequest) (freshBase : Nat) :
    SlideshowPatchResult :=
  if slideshowValidate ss req then
    let ss2 := bumpVersion (applySlideshowFields ss req)
    match req.slides with
    | none => SlideshowPatchResult.ok ss2 store
    | some ps =>
        match insertSlides render ss.id freshBase ps
            (store.filter fun s => s.slideshowId != ss.id) with
        | Except.ok store2 => SlideshowPatchResult.ok ss2 store2
        | Except.error _ => SlideshowPatchResult.dbError ss store
  else
    SlideshowPatchResult.versionConflict ss store

/-! ## Claim C1: the last-teacher guard -/

/-- Claim C1, counterexample.  The claim asserts that the teacher deny
path (PATCH with status denied) is also protected by the last-teacher
guard.  It is not: denying the sole enrolled teacher of a course deletes
the row (204) and leaves the course with no enrolled teacher, instead of
returning Conflict with the store unchanged. -/
theorem last_teacher_deny_counterexample :
    membershipPatch [⟨0, 0, 0, Role.teacher, MemberStatus.enrolled⟩]
        ⟨0, 0, 0, Role.teacher, MemberStatus.enrolled⟩
        ⟨some PatchStatus.denied, none⟩ =
      MutationResult.noContent [] ∧
    enrolledTeacherCount [⟨0, 0, 0, Role.teacher, MemberStatus.enrolled⟩] 0 = 1 ∧
    enrolledTeacherCount [] 0 = 0 := by
  decide

/-- Claim C1, amended.  For a membership with role teacher and no other
enrolled-teacher membership of its course (the guard counts the others,
excluding the row being mutated): a role change away from teacher, a
member removal and a member leave each return Conflict with the store
unchanged; the deny-via-status-patch path is not guarded and deletes the
row unconditionally. -/
theorem last_teacher_guard_amended
    (store : List CourseMembership) (m : CourseMembership)
    (st : Option PatchStatus) (r : Role) (ro : Option Role)
    (hTeach : m.role = Role.teacher)
    (hOther : otherEnrolledTeacherExists store m = false)
    (hSt : st ≠ some PatchStatus.denied)
    (hDem : r ≠ Role.teacher)
    (hFind : findMembership store m.courseId m.userId = some m) :
    membershipPatch store m ⟨st, some r⟩ = MutationResult.conflict store ∧
    membershipRemove store m = MutationResult.conflict store ∧
    courseLeave store m.courseId m.userId = MutationResult.conflict store ∧
    membershipPatch store m ⟨some PatchStatus.denied, ro⟩ =
      MutationResult.noContent (deleteMembership store m.pk) := by
  refine ⟨?_, ?_, ?_, ?_⟩
  · simp [membershipPatch, isLastTeacher, hTeach, hOther, hSt, hDem]
  · simp [membershipRemove, isLastTeacher, hTeach, hOther]
  · simp [courseLeave, hFind, hTeach, hOther]
  · simp [membershipPatch]

/-- Witness for the amended claim C1 at a one-teacher course. -/
theorem last_teacher_guard_amended_witness :
    membershipPatch [⟨1, 5, 9, Role.teacher, MemberStatus.enrolled⟩]
        ⟨1, 5, 9, Role.teacher, MemberStatus.enrolled⟩
        ⟨none, some Role.student⟩ =
      MutationResult.conflict [⟨1, 5, 9, Role.teacher, MemberStatus.enrolled⟩] ∧
    membershipRemove [⟨1, 5, 9, Role.teacher, MemberStatus.enrolled⟩]
        ⟨1, 5, 9, Role.teacher, MemberStatus.enrolled⟩ =
      MutationResult.conflict [⟨1, 5, 9, Role.teacher, MemberStatus.enrolled⟩] ∧
    courseLeave [⟨1, 5, 9, Role.teacher, MemberStatus.enrolled⟩] 9 5 =
      MutationResult.conflict [⟨1, 5, 9, Role.teacher, MemberStatus.enrolled⟩] ∧
    membershipPatch [⟨1, 5, 9, Role.teacher, MemberStatus.enrolled⟩]
        ⟨1, 5, 9, Role.teacher, MemberStatus.enrolled⟩
        ⟨some PatchStatus.denied, none⟩ =
      MutationResult.noContent
        (deleteMembership [⟨1, 5, 9, Role.teacher, MemberStatus.enrolled⟩] 1) :=
  last_teacher_guard_amended
    [⟨1, 5, 9, Role.teacher, MemberStatus.enrolled⟩]
    ⟨1, 5, 9, Role.teacher, MemberStatus.enrolled⟩
    none Role.student none rfl (by decide) (by decide) (by decide) (by decide)

/-! ## Claim C4: joining a course -/

/-- Claim C4.  A join attempt by a user with no membership in the course:
public courses enroll the user immediately as a student; restricted
courses with join requests create a pending student membership; restricted
courses without join requests and private courses reject with no state
change; and when any membership for the pair already exists, in any
status, the attempt is a Conflict with no new row. -/
theorem course_join_spec (store : List CourseMembership) (c : Course)
    (uid fid : Nat) :
    ((∀ m ∈ store, ¬(m.courseId = c.id ∧ m.userId = uid)) →
      (c.visibility = CourseVisibility.pub →
        courseJoin store c uid fid =
          MutationResult.created
            ⟨fid, uid, c.id, Role.student, MemberStatus.enrolled⟩
            (⟨fid, uid, c.id, Role.student, MemberStatus.enrolled⟩ :: store)) ∧
      (c.visibility = CourseVisibility.restricted → c.allow_join_requests = true →
        courseJoin store c uid fid =
          MutationResult.created
            ⟨fid, uid, c.id, Role.student, MemberStatus.pending⟩
            (⟨fid, uid, c.id, Role.student, MemberStatus.pending⟩ :: store)) ∧
      (c.visibility = CourseVisibility.restricted → c.allow_join_requests = false →
        courseJoin store c uid fid = MutationResult.forbidden store) ∧
      (c.visibility = CourseVisibility.priv →
        courseJoin store c uid fid = MutationResult.forbidden store)) ∧
    ((∃ m ∈ store, m.courseId = c.id ∧ m.userId = uid) →
      courseJoin store c uid fid = MutationResult.conflict store) := by
  constructor
  · intro hno
    have hfalse : (store.any fun o => o.courseId == c.id && o.userId == uid) = false := by
      simp only [List.any_eq_false, Bool.and_eq_true, beq_iff_eq, not_and]
      intro o ho
      have := hno o ho
      tauto
    refine ⟨?_, ?_, ?_, ?_⟩
    · intro hv
      simp [courseJoin, hfalse, hv]
    · intro hv hj
      simp [courseJoin, hfalse, hv, hj]
    · intro hv hj
      simp [courseJoin, hfalse, hv, hj]
    · intro hv
      simp [courseJoin, hfalse, hv]
  · rintro ⟨m, hm, h1, h2⟩
    have htrue : (store.any fun o => o.courseId == c.id && o.userId == uid) = true := by
      simp only [List.any_eq_true, Bool.and_eq_true, beq_iff_eq]
      exact ⟨m, hm, h1, h2⟩
    simp [courseJoin, htrue]

/-- Witness for claim C4: joining an empty public course enrolls. -/
theorem course_join_spec_witness :
    courseJoin [] ⟨3, CourseVisibility.pub, false⟩ 4 0 =
      MutationResult.created ⟨0, 4, 3, Role.student, MemberStatus.enrolled⟩
        [⟨0, 4, 3, Role.student, MemberStatus.enrolled⟩] :=
  ((course_join_spec [] ⟨3, CourseVisibility.pub, false⟩ 4 0).1
    (by simp)).1 rfl

/-! ## Claim C7: accepting an invitation -/

/-- Claim C7.  Accepting an invitation succeeds only when the caller's own
membership status for the course is exactly invited, transitioning the
row to enrolled; for any other state (no membership, pending or enrolled)
the operation yields a not-found outcome, not a conflict, and the store is
unchanged. -/
theorem accept_invitation_spec (store : List CourseMembership)
    (cid uid : Nat) (m : CourseMembership) :
    (findMembership store cid uid = some m → m.status = MemberStatus.invited →
      acceptInvitation store cid uid =
        MutationResult.ok
          (updateStore store { m with status := MemberStatus.enrolled })) ∧
    (findMembership store cid uid = some m → m.status ≠ MemberStatus.invited →
      acceptInvitation store cid uid = MutationResult.notFound store) ∧
    (findMembership store cid uid = none →
      acceptInvitation store cid uid = MutationResult.notFound store) := by
  refine ⟨?_, ?_, ?_⟩
  · intro hf hs
    simp [acceptInvitation, hf, hs]
  · intro hf hs
    simp [acceptInvitation, hf, hs]
  · intro hf
    simp [acceptInvitation, hf]

/-- Witness for claim C7: an invited student accepts and becomes
enrolled. -/
theorem accept_invitation_spec_witness :
    acceptInvitation [⟨2, 7, 4, Role.student, MemberStatus.invited⟩] 4 7 =
      MutationResult.ok
        (updateStore [⟨2, 7, 4, Role.student, MemberStatus.invited⟩]
          ⟨2, 7, 4, Role.student, MemberStatus.enrolled⟩) :=
  (accept_invitation_spec [⟨2, 7, 4, Role.student, MemberStatus.invited⟩] 4 7
    ⟨2, 7, 4, Role.student, MemberStatus.invited⟩).1 (by decide) rfl

/-! ## Claim C3: staff and superuser bypass -/

/-- Claim C3, counterexample.  A staff superuser searching for a target
whose search_visibility is nobody is not found:
can_be_found_by_user has no staff or superuser branch, so the claimed
bypass of all visibility checks fails on the search check. -/
theorem staff_bypass_counterexample :
    (Actor.mk 1 true true true).is_staff = true ∧
    can_be_found_by_user (fun _ => [])
        ⟨0, SearchVisibility.nobody, ProfileVisibility.pub, true, false, true⟩
        (some ⟨1, true, true, true⟩) = false := by
  decide

/-- Claim C3, amended.  An authenticated actor with is_staff or
is_superuser bypasses can_view_full_profile, should_show_email and
should_show_full_name regardless of the target's settings; can_be_found
applies the ordinary search-visibility rules with no such bypass, so a
non-owner staff actor is denied under search_visibility nobody. -/
theorem staff_bypass_amended (friends : FriendsMap) (settingsOf : SettingsMap)
    (ps : PrivacySettings) (targetId : Nat) (u : Actor)
    (hAuth : u.is_authenticated = true)
    (hPriv : u.is_staff = true ∨ u.is_superuser = true) :
    can_view_full_profile friends ps (some u) = true ∧
    should_show_email settingsOf targetId (some u) = true ∧
    should_show_full_name settingsOf targetId (some u) = true ∧
    (ps.search_visibility = SearchVisibility.nobody → u.id ≠ ps.ownerId →
      can_be_found_by_user friends ps (some u) = false) := by
  have hb : (u.is_superuser || u.is_staff) = true := by
    rcases hPriv with h | h <;> simp [h]
  refine ⟨?_, ?_, ?_, ?_⟩
  · simp [can_view_full_profile, hAuth, hb]
  · simp [should_show_email, hb]
  · simp [should_show_full_name, hb]
  · intro hNob hOwn
    simp [can_be_found_by_user, hAuth, hNob, hOwn]

/-- Witness for the amended claim C3 at a staff actor and a target whose
settings deny everything. -/
theorem staff_bypass_amended_witness :
    can_view_full_profile (fun _ => [])
        ⟨0, SearchVisibility.nobody, ProfileVisibility.priv, false, false, false⟩
        (some ⟨1, true, true, false⟩) = true ∧
    should_show_email
        (fun _ => some ⟨0, SearchVisibility.nobody, ProfileVisibility.priv,
          false, false, false⟩) 0 (some ⟨1, true, true, false⟩) = true ∧
    should_show_full_name
        (fun _ => some ⟨0, SearchVisibility.nobody, ProfileVisibility.priv,
          false, false, false⟩) 0 (some ⟨1, true, true, false⟩) = true ∧
    ((⟨0, SearchVisibility.nobody, ProfileVisibility.priv, false, false,
        false⟩ : PrivacySettings).search_visibility = SearchVisibility.nobody →
      (1 : Nat) ≠ 0 →
      can_be_found_by_user (fun _ => [])
        ⟨0, SearchVisibility.nobody, ProfileVisibility.priv, false, false, false⟩
        (some ⟨1, true, true, false⟩) = false) :=
  staff_bypass_amended (fun _ => [])
    (fun _ => some ⟨0, SearchVisibility.nobody, ProfileVisibility.priv,
      false, false, false⟩)
    ⟨0, SearchVisibility.nobody, ProfileVisibility.priv, false, false, false⟩
    0 ⟨1, true, true, false⟩ rfl (Or.inl rfl)

/-! ## Claim C6: friends_of_friends search visibility -/

/-- Claim C6.  Under search_visibility friends_of_friends, an
authenticated non-owner actor can find the target iff the actor is a
direct friend or the two have at least one common friend (an existence
check).  The friendship symmetry hypothesis states, for the friends the
check traverses, that being listed as a friend goes both ways, as the
mutual accept flow guarantees. -/
theorem friends_of_friends_mutual (friends : FriendsMap)
    (ps : PrivacySettings) (u : Actor)
    (hfof : ps.search_visibility = SearchVisibility.friends_of_friends)
    (hAuth : u.is_authenticated = true)
    (hOwn : u.id ≠ ps.ownerId)
    (hSym : ∀ f ∈ friends ps.ownerId, (u.id ∈ friends f ↔ f ∈ friends u.id)) :
    (can_be_found_by_user friends ps (some u) = true ↔
      (u.id ∈ friends ps.ownerId ∨
        ∃ c, c ∈ friends ps.ownerId ∧ c ∈ friends u.id)) := by
  have hmem : ((friends ps.ownerId).any fun x => x == u.id) = true ↔
      u.id ∈ friends ps.ownerId := by
    simp [List.any_eq_true]
  have hmut : have_mutual_friends friends ps.ownerId u.id = true ↔
      ∃ c, c ∈ friends ps.ownerId ∧ c ∈ friends u.id := by
    simp only [have_mutual_friends, List.any_eq_true, beq_iff_eq]
    constructor
    · rintro ⟨f, hf, x, hx, rfl⟩
      exact ⟨f, hf, (hSym f hf).1 hx⟩
    · rintro ⟨c, hc, hcu⟩
      exact ⟨c, hc, u.id, (hSym c hc).2 hcu, rfl⟩
  by_cases hd : u.id ∈ friends ps.ownerId
  · have hA := hmem.mpr hd
    simp [can_be_found_by_user, hAuth, hOwn, hfof, hA, hd]
  · have hA : ((friends ps.ownerId).any fun x => x == u.id) = false :=
      Bool.eq_false_iff.mpr fun h => hd (hmem.mp h)
    simp [can_be_found_by_user, hAuth, hOwn, hfof, hA, hd, hmut]

/-- Witness for claim C6: owner 0 and actor 2 are not direct friends but
share the single mutual friend 1, so the actor can find the owner. -/
theorem friends_of_friends_mutual_witness :
    can_be_found_by_user
        (fun n => if n = 0 then [1] else if n = 1 then [0, 2]
          else if n = 2 then [1] else [])
        ⟨0, SearchVisibility.friends_of_friends, ProfileVisibility.pub,
          true, false, true⟩
        (some ⟨2, true, false, false⟩) = true :=
  (friends_of_friends_mutual
    (fun n => if n = 0 then [1] else if n = 1 then [0, 2]
      else if n = 2 then [1] else [])
    ⟨0, SearchVisibility.friends_of_friends, ProfileVisibility.pub,
      true, false, true⟩
    ⟨2, true, false, false⟩ rfl rfl (by decide) (by decide)).mpr
    (Or.inr ⟨1, by decide, by decide⟩)

/-! ## Claim C2: slideshow version conflict is check-then-write -/

/-- Claim C2.  When the client supplies a version that parses as an
integer different from the stored version, the update is rejected as a
conflict before any mutation: the returned slideshow row and slide store
are exactly the input ones. -/
theorem slideshow_version_conflict_rejects (render : String → String)
    (ss : Slideshow) (store : List Slide) (req : SlideshowPatchRequest)
    (fid : Nat) (n : Int)
    (hv : req.version = some (ClientVersion.intVal n))
    (hne : n ≠ (ss.version : Int)) :
    slideshowPatch render ss store req fid =
      SlideshowPatchResult.versionConflict ss store := by
  have hval : slideshowValidate ss req = false := by
    simp [slideshowValidate, hv, hne]
  simp [slideshowPatch, hval]

/-- Witness for claim C2: a stale version 5 against stored version 1 is
rejected with both stores unchanged. -/
theorem slideshow_version_conflict_rejects_witness :
    slideshowPatch (fun s => s)
        ⟨0, "t", none, 0, SlideshowVisibility.priv, false, 1⟩
        [] ⟨some (ClientVersion.intVal 5), some "x", none, none, none, none⟩ 0 =
      SlideshowPatchResult.versionConflict
        ⟨0, "t", none, 0, SlideshowVisibility.priv, false, 1⟩ [] :=
  slideshow_version_conflict_rejects (fun s => s)
    ⟨0, "t", none, 0, SlideshowVisibility.priv, false, 1⟩ []
    ⟨some (ClientVersion.intVal 5), some "x", none, none, none, none⟩ 0 5
    rfl (by decide)

/-! ## Claim C10: unparsable client version skips the check -/

/-- Claim C10, counterexample.  The claim asserts the stored version is
still incremented when the conflict check is skipped.  It is not: a raw
version the bare int call cannot parse only reaches validate after the
writable version field coerced it (for example the string "1.0" to 1),
and update then writes that coerced value before the increment.  With
stored version 3 and coerced client value 1 the stored version becomes 2,
a regression, not 3 plus one. -/
theorem version_skip_counterexample :
    slideshowPatch (fun s => s)
        ⟨0, "t", none, 0, SlideshowVisibility.priv, false, 3⟩ []
        ⟨some (ClientVersion.nonIntCoerced 1), none, none, none, none, none⟩ 0 =
      SlideshowPatchResult.ok
        ⟨0, "t", none, 0, SlideshowVisibility.priv, false, 2⟩ [] ∧
    (2 : Nat) ≠ 3 + 1 := by
  decide

/-- Claim C10, amended.  A version value that bare int parsing rejects
necessarily arrived field-coerced to some integer v (values the field
cannot coerce at all fail with a 400 before validate runs and are outside
this model).  For such requests, and likewise when no version key is
supplied, validate passes and no version conflict can be returned; the
update proceeds (shown for a metadata-only body), but the resulting
stored version is the coerced client value plus one, which may regress,
while only the no-version-key case yields the previous stored version
plus one. -/
theorem slideshow_version_skip_amended (render : String → String)
    (ss : Slideshow) (store : List Slide) (req : SlideshowPatchRequest)
    (fid v : Nat)
    (h : req.version = some (ClientVersion.nonIntCoerced v) ∨
      req.version = none) :
    slideshowValidate ss req = true ∧
    (∀ ss2 st2, slideshowPatch render ss store req fid ≠
      SlideshowPatchResult.versionConflict ss2 st2) ∧
    (req.slides = none →
      slideshowPatch render ss store req fid =
        SlideshowPatchResult.ok (bumpVersion (applySlideshowFields ss req)) store) ∧
    (req.version = some (ClientVersion.nonIntCoerced v) →
      (bumpVersion (applySlideshowFields ss req)).version = v + 1) ∧
    (req.version = none →
      (bumpVersion (applySlideshowFields ss req)).version = ss.version + 1) := by
  have hval : slideshowValidate ss req = true := by
    rcases h with h | h <;> simp [slideshowValidate, h]
  refine ⟨hval, ?_, ?_, ?_, ?_⟩
  · intro ss2 st2
    cases hs : req.slides with
    | none => simp [slideshowPatch, hval, hs]
    | some ps =>
        cases hr : insertSlides render ss.id fid ps
            (store.filter fun s => s.slideshowId != ss.id) with
        | ok st3 => simp [slideshowPatch, hval, hs, hr]
        | error e => simp [slideshowPatch, hval, hs, hr]
  · intro hs
    simp [slideshowPatch, hval, hs]
  · intro hv
    simp [bumpVersion, applySlideshowFields, hv]
  · intro hv
    simp [bumpVersion, applySlideshowFields, hv]

/-- Witness for the amended claim C10: coerced client value 1 against
stored version 3 skips the check, updates, and leaves version 2. -/
theorem slideshow_version_skip_amended_witness :
    slideshowValidate ⟨0, "t", none, 0, SlideshowVisibility.priv, false, 3⟩
        ⟨some (ClientVersion.nonIntCoerced 1), some "new", none, none, none,
          none⟩ = true ∧
    slideshowPatch (fun s => s)
        ⟨0, "t", none, 0, SlideshowVisibility.priv, false, 3⟩ []
        ⟨some (ClientVersion.nonIntCoerced 1), some "new", none, none, none,
          none⟩ 0 =
      SlideshowPatchResult.ok
        ⟨0, "new", none, 0, SlideshowVisibility.priv, false, 2⟩ [] := by
  have h := slideshow_version_skip_amended (fun s => s)
    ⟨0, "t", none, 0, SlideshowVisibility.priv, false, 3⟩ []
    ⟨some (ClientVersion.nonIntCoerced 1), some "new", none, none, none, none⟩
    0 1 (Or.inl rfl)
  exact ⟨h.1, h.2.2.1 rfl⟩

/-! ## Claim C5: slide field redaction for non-owners -/

/-- Claim C5.  For a requester who is not the owner of the parent
slideshow, the serialized slide omits the raw content and the notes,
keeps rendered_content, and does so independently of the slideshow's
visibility and is_published state; the owner's output carries every
field. -/
theorem slide_field_redaction (ss : Slideshow) (uid : Nat) (s : Slide)
    (hneq : uid ≠ ss.created_by) :
    (slideToRepresentation ss uid s).map Prod.fst =
      ["id", "order", "rendered_content"] ∧
    ("rendered_content", RValue.str s.rendered_content) ∈
      slideToRepresentation ss uid s ∧
    (∀ v p, slideToRepresentation
        { ss with visibility := v, is_published := p } uid s =
      slideToRepresentation ss uid s) ∧
    slideToRepresentation ss ss.created_by s = slideBaseRepresentation s := by
  have hb : (ss.created_by == uid) = false := by
    simp only [beq_eq_false_iff_ne, ne_eq]
    exact fun h => hneq h.symm
  have hred : slideToRepresentation ss uid s =
      popKey (popKey (slideBaseRepresentation s) "content") "notes" := by
    simp [slideToRepresentation, hb]
  refine ⟨?_, ?_, ?_, ?_⟩
  · rw [hred]; rfl
  · rw [hred]; simp [popKey, slideBaseRepresentation]
  · intro v p; rfl
  · simp [slideToRepresentation]

/-- Witness for claim C5 at a public published slideshow and a non-owner
requester. -/
theorem slide_field_redaction_witness :
    (slideToRepresentation ⟨1, "t", none, 0, SlideshowVisibility.pub, true, 1⟩ 5
        ⟨3, 1, 0, none, "md", "html", none⟩).map Prod.fst =
      ["id", "order", "rendered_content"] ∧
    ("rendered_content", RValue.str "html") ∈
      slideToRepresentation ⟨1, "t", none, 0, SlideshowVisibility.pub, true, 1⟩ 5
        ⟨3, 1, 0, none, "md", "html", none⟩ :=
  ⟨(slide_field_redaction ⟨1, "t", none, 0, SlideshowVisibility.pub, true, 1⟩ 5
      ⟨3, 1, 0, none, "md", "html", none⟩ (by decide)).1,
   (slide_field_redaction ⟨1, "t", none, 0, SlideshowVisibility.pub, true, 1⟩ 5
      ⟨3, 1, 0, none, "md", "html", none⟩ (by decide)).2.1⟩

/-! ## Claim C8: slide order auto-assignment and uniqueness -/

/-- Folding Nat.max bounds the seed and every list element. -/
theorem le_foldl_max (l : List Nat) (a : Nat) :
    a ≤ l.foldl Nat.max a ∧ ∀ n ∈ l, n ≤ l.foldl Nat.max a := by
  induction l generalizing a with
  | nil => simp
  | cons b t ih =>
      refine ⟨le_trans (Nat.le_max_left a b) (ih (Nat.max a b)).1, ?_⟩
      intro n hn
      rcases List.mem_cons.mp hn with rfl | hm
      · exact le_trans (Nat.le_max_right a n) (ih (Nat.max a n)).1
      · exact (ih (Nat.max a b)).2 n hm

/-- The order of every slide of the slideshow appears in ordersOf. -/
theorem order_mem_ordersOf (store : List Slide) (cid : Nat) (s : Slide)
    (hs : s ∈ store) (hc : s.slideshowId = cid) :
    s.order ∈ ordersOf store cid :=
  List.mem_map.mpr ⟨s, List.mem_filter.mpr ⟨hs, by simp [hc]⟩, rfl⟩

/-- Every existing order of the slideshow is strictly below the
auto-assigned one. -/
theorem ordersOf_lt_autoOrder (store : List Slide) (cid : Nat) :
    ∀ n ∈ ordersOf store cid, n < autoOrder store cid := by
  intro n hn
  unfold autoOrder maxOrder
  cases h : ordersOf store cid with
  | nil => rw [h] at hn; simp at hn
  | cons o os =>
      rw [h] at hn
      show n < os.foldl Nat.max o + 1
      rcases List.mem_cons.mp hn with rfl | hm
      · exact Nat.lt_succ_of_le (le_foldl_max os n).1
      · exact Nat.lt_succ_of_le ((le_foldl_max os o).2 n hm)

/-- The auto-assigned order never collides with an existing row of the
same slideshow. -/
theorem autoOrder_conflict_free (store : List Slide) (cid : Nat) :
    slideOrderConflict store cid (autoOrder store cid) = false := by
  rw [Bool.eq_false_iff]
  intro hconfl
  simp only [slideOrderConflict, List.any_eq_true, Bool.and_eq_true,
    beq_iff_eq] at hconfl
  rcases hconfl with ⟨s, hs, h1, h2⟩
  have hlt := ordersOf_lt_autoOrder store cid s.order
    (order_mem_ordersOf store cid s hs h1)
  omega

/-- Claim C8.  A slide created without an explicit order gets the maximum
existing order of its slideshow plus one (zero when the slideshow has no
slides, per autoOrder) and always inserts; an explicit order equal to an
existing order of the same slideshow is rejected by the uniqueness
constraint; an explicit order that no row of this slideshow holds is
accepted, regardless of other slideshows. -/
theorem slide_order_assignment (render : String → String)
    (store : List Slide) (cid fid : Nat) (p : SlidePayload) :
    (p.order = none →
      slideCreate render store cid fid p =
        Except.ok (slideSave render store cid fid p,
          slideSave render store cid fid p :: store) ∧
      (slideSave render store cid fid p).order = autoOrder store cid ∧
      ∀ s ∈ store, s.slideshowId = cid → s.order < autoOrder store cid) ∧
    (∀ o, p.order = some o →
      (∃ s ∈ store, s.slideshowId = cid ∧ s.order = o) →
      slideCreate render store cid fid p = Except.error ()) ∧
    (∀ o, p.order = some o →
      (∀ s ∈ store, s.slideshowId = cid → s.order ≠ o) →
      slideCreate render store cid fid p =
        Except.ok (slideSave render store cid fid p,
          slideSave render store cid fid p :: store)) := by
  refine ⟨?_, ?_, ?_⟩
  · intro hnone
    have hord : (slideSave render store cid fid p).order = autoOrder store cid := by
      simp [slideSave, hnone]
    have hcf : slideOrderConflict store cid
        ((slideSave render store cid fid p).order) = false := by
      rw [hord]; exact autoOrder_conflict_free store cid
    refine ⟨by simp [slideCreate, hcf], hord, ?_⟩
    intro s hs hc
    exact ordersOf_lt_autoOrder store cid s.order
      (order_mem_ordersOf store cid s hs hc)
  · intro o ho hdup
    have hct : slideOrderConflict store cid
        ((slideSave render store cid fid p).order) = true := by
      rcases hdup with ⟨s, hs, h1, h2⟩
      simp only [slideSave, ho, slideOrderConflict, List.any_eq_true,
        Bool.and_eq_true, beq_iff_eq]
      exact ⟨s, hs, h1, h2⟩
    simp [slideCreate, hct]
  · intro o ho hnodup
    have hcf : slideOrderConflict store cid
        ((slideSave render store cid fid p).order) = false := by
      rw [Bool.eq_false_iff]
      intro hc
      simp only [slideSave, ho, slideOrderConflict, List.any_eq_true,
        Bool.and_eq_true, beq_iff_eq] at hc
      rcases hc with ⟨s, hs, h1, h2⟩
      exact hnodup s hs h1 h2
    simp [slideCreate, hcf]

/-- Witness for claim C8: the order value 5, already used in slideshow 2,
is accepted for a new slide of slideshow 1. -/
theorem slide_order_assignment_witness :
    slideCreate (fun s => s) [⟨0, 2, 5, none, "a", "a", none⟩] 1 7
        ⟨some 5, none, "b", none⟩ =
      Except.ok (⟨7, 1, 5, none, "b", "b", none⟩,
        [⟨7, 1, 5, none, "b", "b", none⟩, ⟨0, 2, 5, none, "a", "a", none⟩]) :=
  (slide_order_assignment (fun s => s) [⟨0, 2, 5, none, "a", "a", none⟩] 1 7
    ⟨some 5, none, "b", none⟩).2.2 5 rfl (by decide)

/-! ## Claim C9: a supplied slides array replaces every slide -/

/-- Every row of a successful insertSlides result is either a pre-existing
row or a freshly created row of this slideshow with primary key at least
the fresh base. -/
theorem insertSlides_ok_mem (render : String → String) (cid : Nat) :
    ∀ (ps : List SlidePayload) (fid : Nat) (store store2 : List Slide),
      insertSlides render cid fid ps store = Except.ok store2 →
      ∀ s ∈ store2, s ∈ store ∨ (s.slideshowId = cid ∧ fid ≤ s.id) := by
  intro ps
  induction ps with
  | nil =>
      intro fid store store2 h s hs
      simp only [insertSlides, Except.ok.injEq] at h
      subst h
      exact Or.inl hs
  | cons p rest ih =>
      intro fid store store2 h s hs
      simp only [insertSlides] at h
      split at h
      · exact absurd h (by simp)
      · rcases ih (fid + 1) _ store2 h s hs with hmem | ⟨h1, h2⟩
        · rcases List.mem_cons.mp hmem with rfl | hmem2
          · exact Or.inr ⟨rfl, Nat.le_refl _⟩
          · exact Or.inl hmem2
        · exact Or.inr ⟨h1, Nat.le_of_succ_le h2⟩

/-- A successful insertSlides keeps every pre-existing row. -/
theorem insertSlides_ok_sup (render : String → String) (cid : Nat) :
    ∀ (ps : List SlidePayload) (fid : Nat) (store store2 : List Slide),
      insertSlides render cid fid ps store = Except.ok store2 →
      ∀ s ∈ store, s ∈ store2 := by
  intro ps
  induction ps with
  | nil =>
      intro fid store store2 h s hs
      simp only [insertSlides, Except.ok.injEq] at h
      subst h
      exact hs
  | cons p rest ih =>
      intro fid store store2 h s hs
      simp only [insertSlides] at h
      split at h
      · exact absurd h (by simp)
      · exact ih (fid + 1) _ store2 h s (List.mem_cons_of_mem _ hs)

/-- The contents of this slideshow's rows after a successful insertSlides
are the payload contents (in reverse creation order) followed by the
pre-existing ones. -/
theorem insertSlides_ok_filter_content (render : String → String) (cid : Nat) :
    ∀ (ps : List SlidePayload) (fid : Nat) (store store2 : List Slide),
      insertSlides render cid fid ps store = Except.ok store2 →
      (store2.filter fun s => s.slideshowId == cid).map (fun s => s.content) =
        (ps.map fun p => p.content).reverse ++
          (store.filter fun s => s.slideshowId == cid).map (fun s => s.content) := by
  intro ps
  induction ps with
  | nil =>
      intro fid store store2 h
      simp only [insertSlides, Except.ok.injEq] at h
      subst h
      simp
  | cons p rest ih =>
      intro fid store store2 h
      simp only [insertSlides] at h
      split at h
      · exact absurd h (by simp)
      · have hrec := ih (fid + 1) _ store2 h
        rw [hrec]
        simp [slideSave, List.filter_cons, List.append_assoc]

/-- Claim C9.  When an update body carries a slides array and the nested
creation succeeds: the patch returns ok with the row produced by the
setattr loop followed by the version increment; no pre-existing row of
this slideshow survives (all identities change, given that the fresh keys
are new); every remaining row of this slideshow is freshly created; rows
of other slideshows are untouched; the slideshow's rows afterwards carry
exactly the payload contents; and when the body has no slides array the
slide store is returned untouched. -/
theorem slideshow_update_replaces_slides (render : String → String)
    (ss : Slideshow) (store : List Slide) (req : SlideshowPatchRequest)
    (fid : Nat) (ps : List SlidePayload) (store2 : List Slide)
    (hval : slideshowValidate ss req = true)
    (hs : req.slides = some ps)
    (hins : insertSlides render ss.id fid ps
        (store.filter fun s => s.slideshowId != ss.id) = Except.ok store2)
    (hfresh : ∀ s ∈ store, s.id < fid) :
    slideshowPatch render ss store req fid =
      SlideshowPatchResult.ok
        (bumpVersion (applySlideshowFields ss req)) store2 ∧
    (∀ s ∈ store, s.slideshowId = ss.id → s ∉ store2) ∧
    (∀ s ∈ store2, s.slideshowId = ss.id → fid ≤ s.id) ∧
    (∀ s ∈ store, s.slideshowId ≠ ss.id → s ∈ store2) ∧
    (store2.filter fun s => s.slideshowId == ss.id).map (fun s => s.content) =
      (ps.map fun p => p.content).reverse ∧
    (∀ req2 : SlideshowPatchRequest, req2.slides = none →
      slideshowValidate ss req2 = true →
      slideshowPatch render ss store req2 fid =
        SlideshowPatchResult.ok
          (bumpVersion (applySlideshowFields ss req2)) store) := by
  refine ⟨?_, ?_, ?_, ?_, ?_, ?_⟩
  · simp [slideshowPatch, hval, hs, hins]
  · intro s hsm hcid hmem2
    rcases insertSlides_ok_mem render ss.id ps fid _ store2 hins s hmem2 with
      hkept | ⟨_, hge⟩
    · have := (List.mem_filter.mp hkept).2
      simp [hcid] at this
    · exact absurd hge (by have := hfresh s hsm; omega)
  · intro s hsm hcid
    rcases insertSlides_ok_mem render ss.id ps fid _ store2 hins s hsm with
      hkept | ⟨_, hge⟩
    · have := (List.mem_filter.mp hkept).2
      simp [hcid] at this
    · exact hge
  · intro s hsm hne
    exact insertSlides_ok_sup render ss.id ps fid _ store2 hins s
      (List.mem_filter.mpr ⟨hsm, by simp [hne]⟩)
  · have hnil : ((store.filter fun s => s.slideshowId != ss.id).filter
        fun s => s.slideshowId == ss.id) = [] := by
      rw [List.filter_eq_nil_iff]
      intro s hsm
      have := (List.mem_filter.mp hsm).2
      simp at this ⊢
      exact this
    have := insertSlides_ok_filter_content render ss.id ps fid _ store2 hins
    rw [this, hnil]
    simp
  · intro req2 h2 hv2
    simp [slideshowPatch, hv2, h2]

/-- Witness for claim C9: a one-slide payload replaces the single existing
slide; the surviving row is the freshly created one. -/
theorem slideshow_update_replaces_slides_witness :
    slideshowPatch (fun s => s)
        ⟨1, "t", none, 0, SlideshowVisibility.pub, true, 1⟩
        [⟨0, 1, 0, none, "old", "oldhtml", none⟩]
        ⟨none, none, none, none, none, some [⟨none, none, "new", none⟩]⟩ 10 =
      SlideshowPatchResult.ok
        ⟨1, "t", none, 0, SlideshowVisibility.pub, true, 2⟩
        [⟨10, 1, 0, none, "new", "new", none⟩] ∧
    (([⟨10, 1, 0, none, "new", "new", none⟩] : List Slide).filter
        fun s => s.slideshowId == 1).map (fun s => s.content) = ["new"] := by
  have h := slideshow_update_replaces_slides (fun s => s)
    ⟨1, "t", none, 0, SlideshowVisibility.pub, true, 1⟩
    [⟨0, 1, 0, none, "old", "oldhtml", none⟩]
    ⟨none, none, none, none, none, some [⟨none, none, "new", none⟩]⟩ 10
    [⟨none, none, "new", none⟩] [⟨10, 1, 0, none, "new", "new", none⟩]
    rfl rfl rfl (by decide)
  exact ⟨h.1, h.2.2.2.2.1⟩

end EduLite
